import Mathlib

/-!
Shallow embedding of the campaign-dispatch and job-lifecycle engine of the
`supersocial` backend (FastAPI + Celery), covering:

* `src/backend/app/models/{job,account,campaign}.py` — the data model
  (status enums and the relational rows for Job, Account, Campaign);
* `src/backend/app/worker/tasks.py` — `_upload_video_task_async`
  (the job executor) and `_start_campaign_task_async` (the worker-side
  campaign dispatcher);
* `src/backend/app/api/campaigns.py` — `start_campaign` and
  `cancel_campaign`;
* `src/backend/app/api/jobs.py` — `retry_job`.

Timestamps (`datetime.utcnow()`) are modelled as natural numbers supplied by
the caller; the random draws of `random.uniform` are modelled as rational
parameters constrained to the interval the code draws from.  Database commits
are modelled as elements of a list of durable `DB` states where the claims
need to distinguish commit points.
-/

/-- Job status enumeration (`JobStatus` in `models/job.py`). -/
inductive JobStatus
  | pending
  | running
  | completed
  | failed
  | cancelled
  | retrying
deriving DecidableEq, Repr

/-- Account status enumeration (`AccountStatus` in `models/account.py`). -/
inductive AccountStatus
  | active
  | banned
  | cooldown
  | needsCaptcha
  | inactive
deriving DecidableEq, Repr

/-- Campaign status enumeration (`CampaignStatus` in `models/campaign.py`). -/
inductive CampaignStatus
  | draft
  | scheduled
  | running
  | paused
  | completed
  | cancelled
deriving DecidableEq, Repr

/-- A row of the `jobs` table (`Job` in `models/job.py`).  Nullable columns
are `Option`s; `datetime` columns are abstract instants (`Nat`). -/
structure Job where
  id : Nat
  campaignId : Nat
  accountId : Nat
  status : JobStatus
  videoPath : String
  caption : String
  errorMessage : Option String
  retryCount : Nat
  maxRetries : Nat
  createdAt : Nat
  startedAt : Option Nat
  completedAt : Option Nat
deriving DecidableEq, Repr

/-- A row of the `accounts` table (`Account` in `models/account.py`),
restricted to the columns the dispatcher and executor read or write. -/
structure Account where
  id : Nat
  status : AccountStatus
  proxyId : Option Nat
  profileId : Option Nat
  lastUsed : Option Nat
deriving DecidableEq, Repr

/-- A row of the `campaigns` table (`Campaign` in `models/campaign.py`).
The JSON `account_selection` dict is flattened into `strategy`,
`filterProxyId`, `filterProfileId`, `maxAccounts`, `randomSelect`
(absent / falsy dict entries become `none` / `false`); the JSON `schedule`
dict contributes `intervalMinutes` (the value of
`schedule.get("interval_minutes", default)` at the call site). -/
structure Campaign where
  id : Nat
  status : CampaignStatus
  videoPath : String
  captionTemplate : String
  strategy : String
  filterProxyId : Option Nat
  filterProfileId : Option Nat
  maxAccounts : Option Nat
  randomSelect : Bool
  intervalMinutes : Nat
  createdAt : Nat
  startedAt : Option Nat
  completedAt : Option Nat
deriving DecidableEq, Repr

/-- The relational store: the three tables the claims touch, plus the
autoincrement counter that `db.flush()` draws fresh job ids from. -/
structure DB where
  campaigns : List Campaign
  accounts : List Account
  jobs : List Job
  nextJobId : Nat
deriving DecidableEq, Repr

/-- Error kinds surfaced by the API endpoints (each corresponds to one
`HTTPException` site in `api/campaigns.py` / `api/jobs.py`). -/
inductive ApiError
  | notFound
  | alreadyRunning
  | noEligibleAccounts
  | invalidStatus
  | maxRetriesReached
deriving DecidableEq, Repr

/-! ## Job executor: `_upload_video_task_async` (`worker/tasks.py`) -/

/-- Outcome of the external upload collaborator as seen by the executor:
`ok` — `upload_result.get("success")` truthy; `fail err` — the collaborator
returned `success = False` with `error = err`; `exn msg` — an exception
escaped (network error, collaborator crash, …), landing in the
`except Exception` handler. -/
inductive UploadOutcome
  | ok
  | fail (err : String)
  | exn (msg : String)
deriving DecidableEq, Repr

/-- The `except Exception` handler of `_upload_video_task_async`
(lines 172–194 of `worker/tasks.py`), acting on the job row re-loaded from
the database: increment `retry_count`; if it reached `max_retries`, mark the
job `FAILED` with a final error message and `completed_at`, else mark it
`RETRYING` with a progress message. -/
def failureStep (j : Job) (msg : String) (now : Nat) : Job :=
  let rc := j.retryCount + 1
  if j.maxRetries ≤ rc then
    { j with retryCount := rc, status := .failed
           , errorMessage := some ("Max retries exceeded: " ++ msg)
           , completedAt := some now }
  else
    { j with retryCount := rc, status := .retrying
           , errorMessage := some ("Retry " ++ toString rc ++ "/"
               ++ toString j.maxRetries ++ ": " ++ msg) }

/-- One executor run of `_upload_video_task_async` for a delivered job id:
the loaded job is unconditionally set to `RUNNING` with `started_at = now`
(lines 85–87, committed), then the upload outcome is interpreted
(lines 144–156 for a collaborator result, lines 172–194 for an exception).
Returns the final committed job row and account row. -/
def execUploadTask (j : Job) (a : Account) (outcome : UploadOutcome)
    (now : Nat) : Job × Account :=
  let j1 := { j with status := .running, startedAt := some now }
  match outcome with
  | .ok =>
      ({ j1 with status := .completed, completedAt := some now },
       { a with lastUsed := some now })
  | .fail err =>
      ({ j1 with status := .failed, errorMessage := some err
               , completedAt := some now }, a)
  | .exn msg => (failureStep j1 msg now, a)

/-- One delivery of the job's message that ends in a transient execution
failure: the executor re-runs the job (setting it `RUNNING`) and the
exception handler then applies `failureStep`. -/
def deliverFailure (j : Job) (msg : String) (now : Nat) : Job :=
  failureStep { j with status := .running, startedAt := some now } msg now

/-- `n` successive deliveries each ending in a transient failure. -/
def runFailures (j : Job) : Nat → Job
  | 0 => j
  | n + 1 => deliverFailure (runFailures j n) "boom" n

/-! ## Delay distribution (duplicated in `api/campaigns.py` lines 192–202 and
`worker/tasks.py` lines 265–276) -/

/-- The windowed branch shared by both call sites: with the schedule's
`interval_minutes = m`, account index `i` (0-based) out of `total` accounts,
`max_delay_seconds = m * 60`, `delay = (max_delay_seconds / (total - 1)) * i`,
jitter `u * delay` with `u` the `random.uniform(-0.1, 0.1)` draw, then
`delay = max(0, delay + jitter)`. -/
def computeDelayWindowed (m i total : Nat) (u : ℚ) : ℚ :=
  let maxDelaySeconds : ℚ := ((m * 60 : Nat) : ℚ)
  let d := maxDelaySeconds / (((total - 1 : Nat)) : ℚ) * i
  max 0 (d + u * d)

/-- The jitterless base delay of the windowed branch:
`(m * 60 / (total - 1)) * i`. -/
def baseDelay (m i total : Nat) : ℚ :=
  ((m * 60 : Nat) : ℚ) / (((total - 1 : Nat)) : ℚ) * i

/-- Delay computation of the API dispatcher (`api/campaigns.py` 192–202):
windowed branch when `interval_minutes > 0 and account_count > 1`, else the
fallback draw `r` of `random.uniform(5, 30)`. -/
def computeDelayApi (m i total : Nat) (u r : ℚ) : ℚ :=
  if 0 < m ∧ 1 < total then computeDelayWindowed m i total u else r

/-- Delay computation of the worker dispatcher (`worker/tasks.py` 265–276):
windowed branch when `time_range_minutes > 0 and account_count > 1`, else the
fallback draw `r` of `random.uniform(0, 30)`. -/
def computeDelayTask (m i total : Nat) (u r : ℚ) : ℚ :=
  if 0 < m ∧ 1 < total then computeDelayWindowed m i total u else r

/-- The support of the API fallback draw `random.uniform(5, 30)`. -/
def apiFallbackDraw (r : ℚ) : Prop := 5 ≤ r ∧ r ≤ 30

/-- The support of the worker fallback draw `random.uniform(0, 30)`. -/
def taskFallbackDraw (r : ℚ) : Prop := 0 ≤ r ∧ r ≤ 30

/-! ## API campaign dispatch: `start_campaign` (`api/campaigns.py` 127–248) -/

/-- The eligibility test built by `start_campaign`'s account query:
`Account.status == ACTIVE`, narrowed by the selection policy's `proxy_id` /
`profile_id` filters when present and truthy, matched by exact equality. -/
def accountEligible (c : Campaign) (a : Account) : Bool :=
  decide (a.status = .active)
  && (match c.filterProxyId with
      | none => true
      | some p => decide (a.proxyId = some p))
  && (match c.filterProfileId with
      | none => true
      | some p => decide (a.profileId = some p))

/-- The eligible account list of `start_campaign` (query result order =
stable storage order). -/
def eligibleAccounts (c : Campaign) (accs : List Account) : List Account :=
  accs.filter (accountEligible c)

/-- The `random_select` / `max_accounts` narrowing of `start_campaign`
(lines 177–181).  `sample` stands for the `random.sample(accounts,
max_accounts)` draw consumed by the random branch. -/
def selectedAccounts (c : Campaign) (el : List Account)
    (sample : List Account) : List Account :=
  match c.maxAccounts with
  | some m =>
      if c.randomSelect ∧ m ≠ 0 ∧ m < el.length then sample
      else if m ≠ 0 ∧ m < el.length then el.take m
      else el
  | none => el

/-- The job row `start_campaign` / `start_campaign_task` create for one
selected account: `status=PENDING, retry_count=0, max_retries=3`, payload
copied from the campaign, `created_at = now`. -/
def mkJob (jid cid aid : Nat) (c : Campaign) (now : Nat) : Job :=
  { id := jid, campaignId := cid, accountId := aid, status := .pending
  , videoPath := c.videoPath, caption := c.captionTemplate
  , errorMessage := none, retryCount := 0, maxRetries := 3
  , createdAt := now, startedAt := none, completedAt := none }

/-- `start_campaign` (`api/campaigns.py`): look up the campaign (404 if
missing); reject if already `RUNNING`; compute the eligible accounts and
abort with the no-active-accounts error if empty; narrow by
`random_select` / `max_accounts`; create one `PENDING` job per selected
account; finally set the campaign `RUNNING` with `started_at = now` and
commit everything at once.  Returns the resulting store (unchanged on every
error path, where the session is rolled back) and the number of jobs
created. -/
def startCampaignApi (db : DB) (cid now : Nat) (sample : List Account) :
    DB × Except ApiError Nat :=
  match db.campaigns.find? (fun c => c.id == cid) with
  | none => (db, .error .notFound)
  | some c =>
    if c.status = .running then (db, .error .alreadyRunning)
    else
      let el := eligibleAccounts c db.accounts
      if el.isEmpty then (db, .error .noEligibleAccounts)
      else
        let sel := selectedAccounts c el sample
        let newJobs := sel.enum.map (fun p => mkJob (db.nextJobId + p.1) cid p.2.id c now)
        let c' := { c with status := .running, startedAt := some now }
        ({ db with jobs := db.jobs ++ newJobs
                 , campaigns := db.campaigns.map (fun x => if x.id = cid then c' else x)
                 , nextJobId := db.nextJobId + newJobs.length },
         .ok newJobs.length)

/-- The durable commits produced by one `start_campaign` call: the endpoint
issues a single `db.commit()` at the end, so an error path commits nothing
and a successful path commits exactly the final state. -/
def apiStartCommits (db : DB) (cid now : Nat) (sample : List Account) :
    List DB :=
  match (startCampaignApi db cid now sample).2 with
  | .ok _ => [(startCampaignApi db cid now sample).1]
  | .error _ => []

/-! ## Worker campaign dispatch: `_start_campaign_task_async`
(`worker/tasks.py` 224–332) -/

/-- The sequence of durable commits produced by one run of
`_start_campaign_task_async`: the campaign is set `RUNNING` with
`started_at = now` and committed (lines 238–240) *before* any job exists;
then the selected accounts are loaded and, if any, one `PENDING` job per
account is created and committed (lines 265–311).  If no account matches, a
`ValueError` is raised and the `except` handler commits the campaign as
`CANCELLED` (lines 321–330); a missing campaign raises before any commit. -/
def workerStartCommits (db : DB) (cid : Nat) (accountIds : List Nat)
    (now : Nat) : List DB :=
  match db.campaigns.find? (fun c => c.id == cid) with
  | none => []
  | some c =>
    let c1 := { c with status := .running, startedAt := some now }
    let db1 := { db with campaigns := db.campaigns.map (fun x => if x.id = cid then c1 else x) }
    let accounts := db.accounts.filter (fun a => accountIds.contains a.id)
    if accounts.isEmpty then
      let c2 := { c1 with status := .cancelled }
      [db1, { db1 with campaigns := db1.campaigns.map (fun x => if x.id = cid then c2 else x) }]
    else
      let newJobs := accounts.enum.map (fun p => mkJob (db.nextJobId + p.1) cid p.2.id c now)
      [db1, { db1 with jobs := db1.jobs ++ newJobs
                     , nextJobId := db.nextJobId + newJobs.length }]

/-! ## `cancel_campaign` (`api/campaigns.py` 281–316) -/

/-- The per-job update of `cancel_campaign`: exactly the campaign's jobs
still `PENDING` become `CANCELLED`; every other job row is untouched. -/
def cancelPendingJob (cid : Nat) (j : Job) : Job :=
  if j.campaignId = cid ∧ j.status = .pending then { j with status := .cancelled }
  else j

/-- `cancel_campaign`: look up the campaign (404 if missing); set its status
`CANCELLED` and `completed_at = now`; move the campaign's `PENDING` jobs to
`CANCELLED`; commit. -/
def cancelCampaign (db : DB) (cid now : Nat) : DB × Except ApiError Campaign :=
  match db.campaigns.find? (fun c => c.id == cid) with
  | none => (db, .error .notFound)
  | some c =>
    let c' := { c with status := .cancelled, completedAt := some now }
    ({ db with campaigns := db.campaigns.map (fun x => if x.id = cid then c' else x)
             , jobs := db.jobs.map (cancelPendingJob cid) },
     .ok c')

/-! ## `retry_job` (`api/jobs.py` 136–180) -/

/-- The reset applied by `retry_job`: `status=PENDING`, `retry_count += 1`,
`error_message`/`started_at`/`completed_at` cleared. -/
def resetForRetry (j : Job) : Job :=
  { j with status := .pending, retryCount := j.retryCount + 1
         , errorMessage := none, startedAt := none, completedAt := none }

/-- `retry_job`: look up the job (404 if missing); reject with 400 if its
status is not in `[FAILED, CANCELLED]`; reject with 400 if
`retry_count >= max_retries`; otherwise reset the job for retry and commit.
The store is unchanged on every error path. -/
def retryJob (db : DB) (jid : Nat) : DB × Except ApiError Job :=
  match db.jobs.find? (fun j => j.id == jid) with
  | none => (db, .error .notFound)
  | some j =>
    if ¬(j.status = .failed ∨ j.status = .cancelled) then (db, .error .invalidStatus)
    else if j.maxRetries ≤ j.retryCount then (db, .error .maxRetriesReached)
    else
      let j' := resetForRetry j
      ({ db with jobs := db.jobs.map (fun x => if x.id = jid then j' else x) },
       .ok j')

/-! ## Helper lemmas -/

/-- `deliverFailure` increments `retry_count` by exactly one. -/
lemma deliverFailure_retryCount (j : Job) (msg : String) (now : Nat) :
    (deliverFailure j msg now).retryCount = j.retryCount + 1 := by
  unfold deliverFailure failureStep
  by_cases h : j.maxRetries ≤ j.retryCount + 1 <;> simp [h]

/-- `deliverFailure` preserves `max_retries`. -/
lemma deliverFailure_maxRetries (j : Job) (msg : String) (now : Nat) :
    (deliverFailure j msg now).maxRetries = j.maxRetries := by
  unfold deliverFailure failureStep
  by_cases h : j.maxRetries ≤ j.retryCount + 1 <;> simp [h]

/-- After `n` failed deliveries, `retry_count` has grown by exactly `n`. -/
lemma runFailures_retryCount (j : Job) (n : Nat) :
    (runFailures j n).retryCount = j.retryCount + n := by
  induction n with
  | zero => rfl
  | succ n ih => simp [runFailures, deliverFailure_retryCount, ih, Nat.add_assoc]

/-- The status resulting from a failed delivery, by case on whether the
incremented counter reached `max_retries`. -/
lemma deliverFailure_status (j : Job) (msg : String) (now : Nat) :
    (deliverFailure j msg now).status
      = if j.maxRetries ≤ j.retryCount + 1 then .failed else .retrying := by
  unfold deliverFailure failureStep
  by_cases h : j.maxRetries ≤ j.retryCount + 1 <;> simp [h]

/-! ## Claim theorems -/

/-- Concrete terminal job for the duplicate-delivery scenario: completed at
instant 6, started at instant 5. -/
def jobTerminalDup : Job :=
  { id := 1, campaignId := 1, accountId := 1, status := .completed
  , videoPath := "v.mp4", caption := "c", errorMessage := none
  , retryCount := 0, maxRetries := 3, createdAt := 0
  , startedAt := some 5, completedAt := some 6 }

/-- Concrete owning account for the duplicate-delivery scenario. -/
def acctTerminalDup : Account :=
  { id := 1, status := .active, proxyId := none, profileId := none
  , lastUsed := none }

/-- C1: the claim says a delivery for a Job already in a terminal state is
acknowledged and dropped as a no-op, changing neither status nor timestamps.
The executor `_upload_video_task_async` performs no terminal-state check: on
a redelivery for the already-`COMPLETED` job `jobTerminalDup` it sets the
job `RUNNING`, restamps `started_at`, re-executes, and here (collaborator
failure) leaves it `FAILED` with a fresh `completed_at` — status and both
timestamps change. -/
theorem upload_executor_reruns_terminal_job :
    jobTerminalDup.status = .completed ∧
    (execUploadTask jobTerminalDup acctTerminalDup (.fail "e") 10).1.status = .failed ∧
    (execUploadTask jobTerminalDup acctTerminalDup (.fail "e") 10).1.status ≠ jobTerminalDup.status ∧
    (execUploadTask jobTerminalDup acctTerminalDup (.fail "e") 10).1.startedAt = some 10 ∧
    (execUploadTask jobTerminalDup acctTerminalDup (.fail "e") 10).1.startedAt ≠ jobTerminalDup.startedAt ∧
    (execUploadTask jobTerminalDup acctTerminalDup (.fail "e") 10).1.completedAt = some 10 ∧
    (execUploadTask jobTerminalDup acctTerminalDup (.fail "e") 10).1.completedAt ≠ jobTerminalDup.completedAt := by
  decide

/-- Concrete fresh job (`retry_count = 0`, `max_retries = 3`) for the
transient-failure counterexample. -/
def jobFreshRetries : Job :=
  { id := 2, campaignId := 1, accountId := 1, status := .pending
  , videoPath := "v.mp4", caption := "c", errorMessage := none
  , retryCount := 0, maxRetries := 3, createdAt := 0
  , startedAt := none, completedAt := none }

/-- C2 counterexample: the claim says `retry_count` never exceeds
`max_retries` across any sequence of transient failures.  Starting from a
fresh job with `max_retries = 3`, four transiently-failing deliveries leave
`retry_count = 4 > 3 = max_retries` (the handler increments the counter
unconditionally before comparing), refuting the bound; the fourth failure
does yield `FAILED`, not `RETRYING`. -/
theorem retry_count_exceeds_max_after_four_failures :
    jobFreshRetries.retryCount = 0 ∧ jobFreshRetries.maxRetries = 3 ∧
    (runFailures jobFreshRetries 4).maxRetries = 3 ∧
    (runFailures jobFreshRetries 4).retryCount = 4 ∧
    ¬((runFailures jobFreshRetries 4).retryCount
        ≤ (runFailures jobFreshRetries 4).maxRetries) ∧
    (runFailures jobFreshRetries 4).status = .failed := by
  decide

/-- C2 as amended: each transiently-failing delivery increments
`retry_count` by exactly one with no upper clamp (so after `n` such
deliveries it has grown by `n`, exceeding `max_retries` once `n` does), and
the resulting status is `FAILED` exactly when the incremented counter
reached `max_retries` — `RETRYING` is produced exactly below the ceiling,
so no failure at or beyond the ceiling ever yields another `RETRYING`. -/
theorem transient_failure_retry_accounting (j : Job) (msg : String)
    (now n : Nat) :
    (deliverFailure j msg now).retryCount = j.retryCount + 1 ∧
    ((deliverFailure j msg now).status = .failed
        ↔ j.maxRetries ≤ j.retryCount + 1) ∧
    ((deliverFailure j msg now).status = .retrying
        ↔ j.retryCount + 1 < j.maxRetries) ∧
    (runFailures j n).retryCount = j.retryCount + n := by
  refine ⟨deliverFailure_retryCount j msg now, ?_, ?_, runFailures_retryCount j n⟩
  · rw [deliverFailure_status]
    by_cases h : j.maxRetries ≤ j.retryCount + 1 <;> simp [h]
  · rw [deliverFailure_status]
    by_cases h : j.maxRetries ≤ j.retryCount + 1 <;> simp [h] <;> omega

/-- Concrete pending job for the permanent-failure scenario. -/
def jobPermFail : Job :=
  { id := 3, campaignId := 1, accountId := 7, status := .pending
  , videoPath := "v.mp4", caption := "c", errorMessage := none
  , retryCount := 0, maxRetries := 3, createdAt := 0
  , startedAt := none, completedAt := none }

/-- Concrete active owning account for the permanent-failure scenario. -/
def acctPermFail : Account :=
  { id := 7, status := .active, proxyId := none, profileId := none
  , lastUsed := none }

/-- C3 counterexample: the claim says a permanent execution failure (e.g.
invalid credentials) additionally downgrades the owning Account's status so
later dispatch excludes it.  On a collaborator failure with error
"Invalid credentials", the executor marks the job `FAILED` but returns the
account row completely unchanged: its status is still `ACTIVE`, so it
remains eligible for dispatch. -/
theorem permanent_failure_leaves_account_active :
    (execUploadTask jobPermFail acctPermFail (.fail "Invalid credentials") 9).1.status = .failed ∧
    (execUploadTask jobPermFail acctPermFail (.fail "Invalid credentials") 9).2 = acctPermFail ∧
    acctPermFail.status = .active ∧
    accountEligible
      { id := 1, status := .draft, videoPath := "v.mp4", captionTemplate := "c"
      , strategy := "all", filterProxyId := none, filterProfileId := none
      , maxAccounts := none, randomSelect := false, intervalMinutes := 0
      , createdAt := 0, startedAt := none, completedAt := none }
      (execUploadTask jobPermFail acctPermFail (.fail "Invalid credentials") 9).2 = true := by
  decide

/-- C3 as amended: a permanent execution failure (the collaborator returns
`success = False` with error `err`) marks the Job `FAILED` immediately —
without consulting the retry counter — recording `error_message = err` and
stamping `completed_at`; the owning Account is returned exactly as it was
read: no status downgrade (or any other account mutation) occurs. -/
theorem permanent_failure_marks_failed_account_unchanged (j : Job)
    (a : Account) (err : String) (now : Nat) :
    (execUploadTask j a (.fail err) now).1.status = .failed ∧
    (execUploadTask j a (.fail err) now).1.errorMessage = some err ∧
    (execUploadTask j a (.fail err) now).1.completedAt = some now ∧
    (execUploadTask j a (.fail err) now).1.retryCount = j.retryCount ∧
    (execUploadTask j a (.fail err) now).2 = a := by
  simp [execUploadTask]

/-- C5 counterexample: the claim says the single fallback delay (N=1 or
W=0) is drawn uniformly from `[5, 30]` in every dispatch path.  The worker
dispatcher draws from `random.uniform(0, 30)`: the draw `2` is in its
support, and the resulting delay is `2 < 5`, outside the claimed range. -/
theorem worker_fallback_delay_below_five :
    taskFallbackDraw 2 ∧
    computeDelayTask 0 0 1 0 2 = 2 ∧
    computeDelayTask 0 0 1 0 2 < 5 ∧
    ¬ apiFallbackDraw (computeDelayTask 0 0 1 0 2) := by
  norm_num [taskFallbackDraw, apiFallbackDraw, computeDelayTask]

/-- C5 as amended: in the fallback case (single account or zero-length
window), the delay equals the uniform draw directly, so the API dispatcher's
delay lies in `[5, 30]` (it draws `random.uniform(5, 30)`) while the worker
dispatcher's delay lies in `[0, 30]` (it draws `random.uniform(0, 30)`). -/
theorem fallback_delay_ranges (m i total : Nat) (u r s : ℚ)
    (h : ¬(0 < m ∧ 1 < total))
    (hr : apiFallbackDraw r) (hs : taskFallbackDraw s) :
    computeDelayApi m i total u r = r ∧
    5 ≤ computeDelayApi m i total u r ∧ computeDelayApi m i total u r ≤ 30 ∧
    computeDelayTask m i total u s = s ∧
    0 ≤ computeDelayTask m i total u s ∧ computeDelayTask m i total u s ≤ 30 := by
  obtain ⟨hr1, hr2⟩ := hr
  obtain ⟨hs1, hs2⟩ := hs
  simp only [computeDelayApi, computeDelayTask, if_neg h]
  exact ⟨trivial, hr1, hr2, trivial, hs1, hs2⟩

/-- Witness for `fallback_delay_ranges` at `m = 0`, `total = 1`,
`r = 10`, `s = 7`. -/
theorem fallback_delay_ranges_witness :
    computeDelayApi 0 0 1 0 10 = 10 ∧
    5 ≤ computeDelayApi 0 0 1 0 10 ∧ computeDelayApi 0 0 1 0 10 ≤ 30 ∧
    computeDelayTask 0 0 1 0 7 = 7 ∧
    0 ≤ computeDelayTask 0 0 1 0 7 ∧ computeDelayTask 0 0 1 0 7 ≤ 30 :=
  fallback_delay_ranges 0 0 1 0 10 7 (by norm_num)
    (by norm_num [apiFallbackDraw]) (by norm_num [taskFallbackDraw])

/-- C6: for a dispatch over `total ≥ 2` accounts with window
`W = interval_minutes * 60 > 0` seconds, the jitterless base delay at
0-based index `i` is `W * i / (total - 1)`, the base delays are weakly
increasing in the index, and after the per-call jitter of at most ±10% of
the base and the clamp below at 0, every delay lies within
`[0, 1.1 * W]`. -/
theorem windowed_delay_monotone_and_bounded (m total i j : Nat) (u : ℚ)
    (hm : 0 < m) (ht : 2 ≤ total) (hij : i ≤ j) (hj : j ≤ total - 1)
    (hu₁ : -(1/10) ≤ u) (hu₂ : u ≤ 1/10) :
    baseDelay m i total = ((m * 60 : Nat) : ℚ) * i / ((total : ℚ) - 1) ∧
    baseDelay m i total ≤ baseDelay m j total ∧
    computeDelayWindowed m i total u
      = max 0 (baseDelay m i total + u * baseDelay m i total) ∧
    0 ≤ computeDelayWindowed m i total u ∧
    computeDelayWindowed m i total u ≤ (11/10) * ((m * 60 : Nat) : ℚ) := by
  have hcast : (((total - 1 : Nat)) : ℚ) = (total : ℚ) - 1 := by
    have h1 : (1 : Nat) ≤ total := by omega
    exact Nat.cast_sub h1
  have hT1 : (0 : ℚ) < (((total - 1 : Nat)) : ℚ) := by
    have h1 : 0 < total - 1 := by omega
    exact_mod_cast h1
  have hW : (0 : ℚ) ≤ ((m * 60 : Nat) : ℚ) := Nat.cast_nonneg _
  have hC : (0 : ℚ) ≤ ((m * 60 : Nat) : ℚ) / (((total - 1 : Nat)) : ℚ) :=
    div_nonneg hW hT1.le
  have hd0 : (0 : ℚ) ≤ baseDelay m i total := by
    unfold baseDelay
    exact mul_nonneg hC (Nat.cast_nonneg i)
  have hiT : ((i : ℚ)) ≤ (((total - 1 : Nat)) : ℚ) := by
    exact_mod_cast le_trans hij hj
  have hdW : baseDelay m i total ≤ ((m * 60 : Nat) : ℚ) := by
    unfold baseDelay
    calc ((m * 60 : Nat) : ℚ) / (((total - 1 : Nat)) : ℚ) * i
        ≤ ((m * 60 : Nat) : ℚ) / (((total - 1 : Nat)) : ℚ)
            * (((total - 1 : Nat)) : ℚ) := by
          exact mul_le_mul_of_nonneg_left hiT hC
      _ = ((m * 60 : Nat) : ℚ) := div_mul_cancel₀ _ hT1.ne'
  refine ⟨?_, ?_, rfl, ?_, ?_⟩
  · unfold baseDelay
    rw [hcast, div_mul_eq_mul_div]
  · unfold baseDelay
    exact mul_le_mul_of_nonneg_left (by exact_mod_cast hij) hC
  · exact le_max_left 0 _
  · have hx : baseDelay m i total + u * baseDelay m i total
        ≤ (11/10) * ((m * 60 : Nat) : ℚ) := by
      have h1 : u * baseDelay m i total ≤ (1/10) * baseDelay m i total :=
        mul_le_mul_of_nonneg_right hu₂ hd0
      nlinarith
    have h0 : (0 : ℚ) ≤ (11/10) * ((m * 60 : Nat) : ℚ) := by positivity
    exact max_le h0 hx

/-- Witness for `windowed_delay_monotone_and_bounded` at `m = 1`,
`total = 2`, indices `0 ≤ 1`, jitter draw `u = 0`. -/
theorem windowed_delay_monotone_and_bounded_witness :
    baseDelay 1 0 2 = ((1 * 60 : Nat) : ℚ) * 0 / ((2 : ℚ) - 1) ∧
    baseDelay 1 0 2 ≤ baseDelay 1 1 2 ∧
    computeDelayWindowed 1 0 2 0 = max 0 (baseDelay 1 0 2 + 0 * baseDelay 1 0 2) ∧
    0 ≤ computeDelayWindowed 1 0 2 0 ∧
    computeDelayWindowed 1 0 2 0 ≤ (11/10) * ((1 * 60 : Nat) : ℚ) :=
  windowed_delay_monotone_and_bounded 1 2 0 1 0 (by norm_num) (by norm_num)
    (by norm_num) (by norm_num) (by norm_num) (by norm_num)

/-- C7: when the eligible account set of a (not already running) campaign is
empty after applying the selection filters, `start_campaign` fails with the
no-eligible-accounts error, and this happens before any job row is created:
the store — in particular its `jobs` table — is returned unchanged. -/
theorem no_eligible_accounts_aborts_before_jobs (db : DB) (cid now : Nat)
    (sample : List Account) (c : Campaign)
    (hfind : db.campaigns.find? (fun x => x.id == cid) = some c)
    (hnr : c.status ≠ .running)
    (hemp : eligibleAccounts c db.accounts = []) :
    startCampaignApi db cid now sample = (db, .error .noEligibleAccounts) ∧
    (startCampaignApi db cid now sample).1.jobs = db.jobs := by
  have h1 : startCampaignApi db cid now sample = (db, .error .noEligibleAccounts) := by
    unfold startCampaignApi
    rw [hfind]
    simp [hnr, hemp]
  exact ⟨h1, by rw [h1]⟩

/-- Draft campaign whose proxy filter matches no account, for the
no-eligible-accounts witness. -/
def campNoMatch : Campaign :=
  { id := 1, status := .draft, videoPath := "v.mp4", captionTemplate := "c"
  , strategy := "all", filterProxyId := some 9, filterProfileId := none
  , maxAccounts := none, randomSelect := false, intervalMinutes := 10
  , createdAt := 0, startedAt := none, completedAt := none }

/-- Store with one active account that fails `campNoMatch`'s proxy filter
and one existing job row (of another campaign). -/
def dbNoMatch : DB :=
  { campaigns := [campNoMatch]
  , accounts := [{ id := 1, status := .active, proxyId := some 3
                 , profileId := none, lastUsed := none }]
  , jobs := [{ id := 40, campaignId := 2, accountId := 1, status := .pending
             , videoPath := "w.mp4", caption := "d", errorMessage := none
             , retryCount := 0, maxRetries := 3, createdAt := 0
             , startedAt := none, completedAt := none }]
  , nextJobId := 41 }

/-- Witness for `no_eligible_accounts_aborts_before_jobs` on `dbNoMatch`. -/
theorem no_eligible_accounts_aborts_before_jobs_witness :
    startCampaignApi dbNoMatch 1 0 [] = (dbNoMatch, .error .noEligibleAccounts) ∧
    (startCampaignApi dbNoMatch 1 0 []).1.jobs = dbNoMatch.jobs :=
  no_eligible_accounts_aborts_before_jobs dbNoMatch 1 0 [] campNoMatch
    (by decide) (by decide) (by decide)

/-- C8: `retry_job` on a `FAILED` job with `retry_count < max_retries`
resets it to `PENDING`, increments `retry_count` by exactly one and clears
`error_message`, `started_at` and `completed_at` (committing the replaced
row); the same call on a job whose `retry_count` already equals
`max_retries` is rejected with an error and the store is unchanged. -/
theorem retry_job_failed_reset_and_limit (db : DB) (jid : Nat) (j : Job)
    (hfind : db.jobs.find? (fun x => x.id == jid) = some j)
    (hs : j.status = .failed) :
    (j.retryCount < j.maxRetries →
      retryJob db jid
        = ({ db with jobs := db.jobs.map (fun x => if x.id = jid then resetForRetry j else x) },
           .ok (resetForRetry j)) ∧
      (resetForRetry j).status = .pending ∧
      (resetForRetry j).retryCount = j.retryCount + 1 ∧
      (resetForRetry j).errorMessage = none ∧
      (resetForRetry j).startedAt = none ∧
      (resetForRetry j).completedAt = none) ∧
    (j.retryCount = j.maxRetries → retryJob db jid = (db, .error .maxRetriesReached)) := by
  constructor
  · intro hlt
    have hnle : ¬ j.maxRetries ≤ j.retryCount := by omega
    refine ⟨?_, rfl, rfl, rfl, rfl, rfl⟩
    unfold retryJob
    rw [hfind]
    simp [hs, hnle]
  · intro heq
    have hle : j.maxRetries ≤ j.retryCount := by omega
    unfold retryJob
    rw [hfind]
    simp [hs, hle]

/-- A concrete `FAILED` job with one retry left. -/
def jobFailedOnce : Job :=
  { id := 5, campaignId := 2, accountId := 3, status := .failed
  , videoPath := "v.mp4", caption := "c", errorMessage := some "boom"
  , retryCount := 2, maxRetries := 3, createdAt := 0
  , startedAt := some 1, completedAt := some 2 }

/-- Store holding `jobFailedOnce` alone. -/
def dbFailedOnce : DB :=
  { campaigns := [], accounts := [], jobs := [jobFailedOnce], nextJobId := 6 }

/-- Witness for `retry_job_failed_reset_and_limit` on `dbFailedOnce`
(`retry_count = 2 < 3 = max_retries`). -/
theorem retry_job_failed_reset_and_limit_witness :
    retryJob dbFailedOnce 5
      = ({ dbFailedOnce with
            jobs := dbFailedOnce.jobs.map
              (fun x => if x.id = 5 then resetForRetry jobFailedOnce else x) },
         .ok (resetForRetry jobFailedOnce)) ∧
    (resetForRetry jobFailedOnce).status = .pending ∧
    (resetForRetry jobFailedOnce).retryCount = jobFailedOnce.retryCount + 1 ∧
    (resetForRetry jobFailedOnce).errorMessage = none ∧
    (resetForRetry jobFailedOnce).startedAt = none ∧
    (resetForRetry jobFailedOnce).completedAt = none :=
  (retry_job_failed_reset_and_limit dbFailedOnce 5 jobFailedOnce
    (by decide) (by decide)).1 (by decide)

/-- C10 (implicit): `retry_job` accepts `CANCELLED` jobs exactly like
`FAILED` ones — below the retry ceiling it performs the same reset to
`PENDING` — and it rejects a (present) job if and only if its status is
neither `FAILED` nor `CANCELLED`, or its `retry_count` has reached
`max_retries`. -/
theorem retry_job_accepts_cancelled_iff (db : DB) (jid : Nat) (j : Job)
    (hfind : db.jobs.find? (fun x => x.id == jid) = some j) :
    (j.status = .cancelled → j.retryCount < j.maxRetries →
        (retryJob db jid).2 = .ok (resetForRetry j) ∧
        (retryJob db jid).1.jobs
          = db.jobs.map (fun x => if x.id = jid then resetForRetry j else x)) ∧
    ((∃ e, (retryJob db jid).2 = .error e)
        ↔ (¬(j.status = .failed ∨ j.status = .cancelled)
            ∨ j.maxRetries ≤ j.retryCount)) := by
  constructor
  · intro hs hlt
    have hnle : ¬ j.maxRetries ≤ j.retryCount := by omega
    constructor
    · unfold retryJob
      rw [hfind]
      simp [hs, hnle]
    · unfold retryJob
      rw [hfind]
      simp [hs, hnle]
  · by_cases h1 : j.status = .failed ∨ j.status = .cancelled
    · by_cases h2 : j.maxRetries ≤ j.retryCount
      · have : (retryJob db jid).2 = .error .maxRetriesReached := by
          unfold retryJob
          rw [hfind]
          simp [h1, h2]
        simp [this, h1, h2]
      · have : (retryJob db jid).2 = .ok (resetForRetry j) := by
          unfold retryJob
          rw [hfind]
          simp [h1, h2]
        simp [this, h1, h2]
    · have : (retryJob db jid).2 = .error .invalidStatus := by
        unfold retryJob
        rw [hfind]
        simp [h1]
      simp [this, h1]

/-- A concrete `CANCELLED` job that has never been retried. -/
def jobCancelledFresh : Job :=
  { id := 6, campaignId := 2, accountId := 3, status := .cancelled
  , videoPath := "v.mp4", caption := "c", errorMessage := none
  , retryCount := 0, maxRetries := 3, createdAt := 0
  , startedAt := none, completedAt := none }

/-- Store holding `jobCancelledFresh` alone. -/
def dbCancelledFresh : DB :=
  { campaigns := [], accounts := [], jobs := [jobCancelledFresh], nextJobId := 7 }

/-- Witness for `retry_job_accepts_cancelled_iff` on `dbCancelledFresh`. -/
theorem retry_job_accepts_cancelled_iff_witness :
    (retryJob dbCancelledFresh 6).2 = .ok (resetForRetry jobCancelledFresh) ∧
    (retryJob dbCancelledFresh 6).1.jobs
      = dbCancelledFresh.jobs.map
          (fun x => if x.id = 6 then resetForRetry jobCancelledFresh else x) :=
  (retry_job_accepts_cancelled_iff dbCancelledFresh 6 jobCancelledFresh
    (by decide)).1 (by decide) (by decide)

/-- C9: `cancel_campaign` sets the campaign's status to `CANCELLED` and its
`completed_at` to now, transitions exactly the campaign's `PENDING` jobs to
`CANCELLED` (all other fields preserved), and leaves every job in any other
status — and every job of other campaigns, and the accounts table —
unmodified. -/
theorem cancel_campaign_effects (db : DB) (cid now : Nat) (c : Campaign)
    (hfind : db.campaigns.find? (fun x => x.id == cid) = some c) :
    (cancelCampaign db cid now).2
      = .ok { c with status := .cancelled, completedAt := some now } ∧
    (cancelCampaign db cid now).1.campaigns
      = db.campaigns.map (fun x =>
          if x.id = cid then { c with status := .cancelled, completedAt := some now } else x) ∧
    (cancelCampaign db cid now).1.jobs = db.jobs.map (cancelPendingJob cid) ∧
    (cancelCampaign db cid now).1.accounts = db.accounts ∧
    (∀ j : Job, j.campaignId = cid → j.status = .pending →
        cancelPendingJob cid j = { j with status := .cancelled }) ∧
    (∀ j : Job, ¬(j.campaignId = cid ∧ j.status = .pending) →
        cancelPendingJob cid j = j) := by
  have h1 : cancelCampaign db cid now
      = ({ db with
            campaigns := db.campaigns.map (fun x =>
              if x.id = cid then { c with status := .cancelled, completedAt := some now } else x)
          , jobs := db.jobs.map (cancelPendingJob cid) },
         .ok { c with status := .cancelled, completedAt := some now }) := by
    unfold cancelCampaign
    rw [hfind]
  refine ⟨by rw [h1], by rw [h1], by rw [h1], by rw [h1], ?_, ?_⟩
  · intro j hj hs
    unfold cancelPendingJob
    simp [hj, hs]
  · intro j hj
    unfold cancelPendingJob
    simp [hj]

/-- A running campaign used by the cancellation witness. -/
def campRunningFix : Campaign :=
  { id := 3, status := .running, videoPath := "v.mp4", captionTemplate := "c"
  , strategy := "all", filterProxyId := none, filterProfileId := none
  , maxAccounts := none, randomSelect := false, intervalMinutes := 10
  , createdAt := 0, startedAt := some 1, completedAt := none }

/-- Store for the cancellation witness: `campRunningFix` plus a `PENDING`
and a `RUNNING` job of campaign 3 and a `PENDING` job of campaign 4. -/
def dbCancelFix : DB :=
  { campaigns := [campRunningFix]
  , accounts := [{ id := 1, status := .active, proxyId := none
                 , profileId := none, lastUsed := none }]
  , jobs :=
      [ { id := 10, campaignId := 3, accountId := 1, status := .pending
        , videoPath := "v.mp4", caption := "c", errorMessage := none
        , retryCount := 0, maxRetries := 3, createdAt := 0
        , startedAt := none, completedAt := none }
      , { id := 11, campaignId := 3, accountId := 1, status := .running
        , videoPath := "v.mp4", caption := "c", errorMessage := none
        , retryCount := 0, maxRetries := 3, createdAt := 0
        , startedAt := some 2, completedAt := none }
      , { id := 12, campaignId := 4, accountId := 1, status := .pending
        , videoPath := "w.mp4", caption := "d", errorMessage := none
        , retryCount := 0, maxRetries := 3, createdAt := 0
        , startedAt := none, completedAt := none } ]
  , nextJobId := 13 }

/-- Witness for `cancel_campaign_effects` on `dbCancelFix` at instant 9. -/
theorem cancel_campaign_effects_witness :
    (cancelCampaign dbCancelFix 3 9).2
      = .ok { campRunningFix with status := .cancelled, completedAt := some 9 } ∧
    (cancelCampaign dbCancelFix 3 9).1.campaigns
      = dbCancelFix.campaigns.map (fun x =>
          if x.id = 3 then { campRunningFix with status := .cancelled, completedAt := some 9 } else x) ∧
    (cancelCampaign dbCancelFix 3 9).1.jobs
      = dbCancelFix.jobs.map (cancelPendingJob 3) ∧
    (cancelCampaign dbCancelFix 3 9).1.accounts = dbCancelFix.accounts := by
  have h := cancel_campaign_effects dbCancelFix 3 9 campRunningFix (by decide)
  exact ⟨h.1, h.2.1, h.2.2.1, h.2.2.2.1⟩

/-- Replacing, in a campaign list, every element with id `cid` by a row `c'`
that still has id `cid` moves a successful id lookup to `c'`. -/
lemma find_replace_campaign (l : List Campaign) (cid : Nat) (c c' : Campaign)
    (hfind : l.find? (fun x => x.id == cid) = some c) (hid : c'.id = cid) :
    (l.map (fun x => if x.id = cid then c' else x)).find? (fun x => x.id == cid)
      = some c' := by
  induction l with
  | nil => simp at hfind
  | cons a l ih =>
    by_cases h : a.id = cid
    · simp only [List.map_cons]
      rw [List.find?_cons_of_pos]
      · simp [h]
      · simp [h, hid]
    · have hfind' : l.find? (fun x => x.id == cid) = some c := by
        rw [List.find?_cons_of_neg] at hfind
        · exact hfind
        · simp [h]
      simp only [List.map_cons]
      rw [List.find?_cons_of_neg]
      · exact ih hfind'
      · simp [h]

/-- A draft campaign for the worker-dispatch commit-order counterexample. -/
def campWorkerFix : Campaign :=
  { id := 1, status := .draft, videoPath := "v.mp4", captionTemplate := "c"
  , strategy := "all", filterProxyId := none, filterProfileId := none
  , maxAccounts := none, randomSelect := false, intervalMinutes := 10
  , createdAt := 0, startedAt := none, completedAt := none }

/-- Store with `campWorkerFix` and one matching active account, no jobs. -/
def dbWorkerFix : DB :=
  { campaigns := [campWorkerFix]
  , accounts := [{ id := 1, status := .active, proxyId := none
                 , profileId := none, lastUsed := none }]
  , jobs := []
  , nextJobId := 1 }

/-- C4 counterexample: the claim says no state in which the campaign is
`RUNNING` with its jobs not yet created is produced.  The worker dispatcher
`_start_campaign_task_async` commits the campaign as `RUNNING` with
`started_at` stamped *before* creating any job: its first durable commit
(of two) for `dbWorkerFix` contains the campaign in status `RUNNING` and an
empty jobs table. -/
theorem worker_dispatch_commits_running_before_jobs :
    (workerStartCommits dbWorkerFix 1 [1] 4).length = 2 ∧
    ((workerStartCommits dbWorkerFix 1 [1] 4).head?.map DB.jobs) = some [] ∧
    ((workerStartCommits dbWorkerFix 1 [1] 4).head?.map
        (fun s => (s.campaigns.find? (fun x => x.id == 1)).map Campaign.status))
      = some (some .running) ∧
    ((workerStartCommits dbWorkerFix 1 [1] 4).head?.map
        (fun s => (s.campaigns.find? (fun x => x.id == 1)).map Campaign.startedAt))
      = some (some (some 4)) := by
  decide

/-- Unfolding of the successful `start_campaign` path: with the campaign
found, not running, and a nonempty eligible set, the endpoint creates one
`PENDING` job per selected account and commits them together with the
campaign set `RUNNING` / `started_at = now` in one state. -/
lemma startCampaignApi_ok (db : DB) (cid now : Nat) (sample : List Account)
    (c : Campaign)
    (hfind : db.campaigns.find? (fun x => x.id == cid) = some c)
    (hrun : ¬ c.status = .running)
    (hemp : ¬ (eligibleAccounts c db.accounts).isEmpty = true) :
    startCampaignApi db cid now sample
      = ({ db with
            jobs := db.jobs
              ++ (selectedAccounts c (eligibleAccounts c db.accounts) sample).enum.map
                   (fun p => mkJob (db.nextJobId + p.1) cid p.2.id c now)
          , campaigns := db.campaigns.map (fun x =>
              if x.id = cid then { c with status := .running, startedAt := some now } else x)
          , nextJobId := db.nextJobId
              + ((selectedAccounts c (eligibleAccounts c db.accounts) sample).enum.map
                   (fun p => mkJob (db.nextJobId + p.1) cid p.2.id c now)).length },
         .ok ((selectedAccounts c (eligibleAccounts c db.accounts) sample).enum.map
                (fun p => mkJob (db.nextJobId + p.1) cid p.2.id c now)).length) := by
  unfold startCampaignApi
  rw [hfind]
  simp [hrun, hemp]

/-- The head of a two-way branch whose both arms start with the same
element. -/
lemma head?_ite_cons {α : Type} (P : Prop) [Decidable P] (x : α)
    (l l' : List α) :
    (if P then x :: l else x :: l').head? = some x := by
  split <;> rfl

/-- C4 as amended: the API `start_campaign` endpoint produces exactly one
durable commit, in which the campaign is `RUNNING` and all `n` created job
rows are already present — no committed state has the campaign `RUNNING`
without its jobs.  The worker `_start_campaign_task_async`, by contrast,
first commits the campaign as `RUNNING` with `started_at` stamped while the
jobs table is still exactly as before — jobs are only created in a later
commit. -/
theorem dispatch_commit_order :
    (∀ (db : DB) (cid now : Nat) (sample : List Account) (n : Nat),
      (startCampaignApi db cid now sample).2 = .ok n →
      (apiStartCommits db cid now sample).length = 1 ∧
      ∀ s ∈ apiStartCommits db cid now sample,
        s.jobs.length = db.jobs.length + n ∧
        (s.campaigns.find? (fun x => x.id == cid)).map Campaign.status
          = some .running ∧
        (s.campaigns.find? (fun x => x.id == cid)).map Campaign.startedAt
          = some (some now)) ∧
    (∀ (db : DB) (cid : Nat) (ids : List Nat) (now : Nat) (c : Campaign),
      db.campaigns.find? (fun x => x.id == cid) = some c →
      ∃ s, (workerStartCommits db cid ids now).head? = some s ∧
        s.jobs = db.jobs ∧
        (s.campaigns.find? (fun x => x.id == cid)).map Campaign.status
          = some .running ∧
        (s.campaigns.find? (fun x => x.id == cid)).map Campaign.startedAt
          = some (some now)) := by
  constructor
  · intro db cid now sample n hok
    cases hfind : db.campaigns.find? (fun x => x.id == cid) with
    | none =>
        exfalso
        unfold startCampaignApi at hok
        rw [hfind] at hok
        simp at hok
    | some c =>
        by_cases hrun : c.status = .running
        · exfalso
          unfold startCampaignApi at hok
          rw [hfind] at hok
          simp [hrun] at hok
        · by_cases hemp : (eligibleAccounts c db.accounts).isEmpty = true
          · exfalso
            unfold startCampaignApi at hok
            rw [hfind] at hok
            simp [hrun, hemp] at hok
          · have hid : ({ c with status := .running, startedAt := some now } : Campaign).id = cid := by
              have h := List.find?_some hfind
              simpa using h
            have hres := startCampaignApi_ok db cid now sample c hfind hrun hemp
            have hn : ((selectedAccounts c (eligibleAccounts c db.accounts) sample).enum.map
                (fun p => mkJob (db.nextJobId + p.1) cid p.2.id c now)).length = n := by
              rw [hres] at hok
              exact Except.ok.inj hok
            constructor
            · unfold apiStartCommits
              rw [hres]
              rfl
            · intro s hs
              unfold apiStartCommits at hs
              rw [hres] at hs
              simp only [List.mem_singleton] at hs
              subst hs
              refine ⟨?_, ?_, ?_⟩
              · simp [List.length_append, hn]
              · rw [show ({ db with
                    jobs := db.jobs
                      ++ (selectedAccounts c (eligibleAccounts c db.accounts) sample).enum.map
                           (fun p => mkJob (db.nextJobId + p.1) cid p.2.id c now)
                  , campaigns := db.campaigns.map (fun x =>
                      if x.id = cid then { c with status := .running, startedAt := some now } else x)
                  , nextJobId := db.nextJobId
                      + ((selectedAccounts c (eligibleAccounts c db.accounts) sample).enum.map
                           (fun p => mkJob (db.nextJobId + p.1) cid p.2.id c now)).length } : DB).campaigns
                  = db.campaigns.map (fun x =>
                      if x.id = cid then { c with status := .running, startedAt := some now } else x) from rfl]
                rw [find_replace_campaign db.campaigns cid c _ hfind hid]
                rfl
              · rw [show ({ db with
                    jobs := db.jobs
                      ++ (selectedAccounts c (eligibleAccounts c db.accounts) sample).enum.map
                           (fun p => mkJob (db.nextJobId + p.1) cid p.2.id c now)
                  , campaigns := db.campaigns.map (fun x =>
                      if x.id = cid then { c with status := .running, startedAt := some now } else x)
                  , nextJobId := db.nextJobId
                      + ((selectedAccounts c (eligibleAccounts c db.accounts) sample).enum.map
                           (fun p => mkJob (db.nextJobId + p.1) cid p.2.id c now)).length } : DB).campaigns
                  = db.campaigns.map (fun x =>
                      if x.id = cid then { c with status := .running, startedAt := some now } else x) from rfl]
                rw [find_replace_campaign db.campaigns cid c _ hfind hid]
                rfl
  · intro db cid ids now c hfind
    have hid : ({ c with status := .running, startedAt := some now } : Campaign).id = cid := by
      have h := List.find?_some hfind
      simpa using h
    refine ⟨{ db with campaigns := db.campaigns.map (fun x =>
        if x.id = cid then { c with status := .running, startedAt := some now } else x) },
      ?_, rfl, ?_, ?_⟩
    · unfold workerStartCommits
      rw [hfind]
      exact head?_ite_cons _ _ _ _
    · rw [show ({ db with campaigns := db.campaigns.map (fun x =>
          if x.id = cid then { c with status := .running, startedAt := some now } else x) } : DB).campaigns
        = db.campaigns.map (fun x =>
            if x.id = cid then { c with status := .running, startedAt := some now } else x) from rfl]
      rw [find_replace_campaign db.campaigns cid c _ hfind hid]
      rfl
    · rw [show ({ db with campaigns := db.campaigns.map (fun x =>
          if x.id = cid then { c with status := .running, startedAt := some now } else x) } : DB).campaigns
        = db.campaigns.map (fun x =>
            if x.id = cid then { c with status := .running, startedAt := some now } else x) from rfl]
      rw [find_replace_campaign db.campaigns cid c _ hfind hid]
      rfl

/-- Witness for `dispatch_commit_order` on `dbWorkerFix`: the API path
commits once, and the worker path's first commit is `RUNNING` with the jobs
table untouched. -/
theorem dispatch_commit_order_witness :
    (apiStartCommits dbWorkerFix 1 5 []).length = 1 ∧
    (∃ s, (workerStartCommits dbWorkerFix 1 [1] 5).head? = some s ∧
      s.jobs = dbWorkerFix.jobs ∧
      (s.campaigns.find? (fun x => x.id == 1)).map Campaign.status
        = some .running ∧
      (s.campaigns.find? (fun x => x.id == 1)).map Campaign.startedAt
        = some (some 5)) := by
  constructor
  · exact (dispatch_commit_order.1 dbWorkerFix 1 5 [] 1 (by rfl)).1
  · exact dispatch_commit_order.2 dbWorkerFix 1 [1] 5 campWorkerFix (by rfl)
